import Mathlib

/-!
Verification development for the time-attendance-terminal-integration core:
the Record Store (`src/database/db_manager.py`), the Session Client
(`src/api/api_client.py`) and the Upload Reconciler
(`src/scheduler/api_uploader.py`), shallowly embedded in Lean.

The SQLite-backed store is modelled as a list of table rows; HTTP traffic is
modelled by explicit environment records (one field per response the code can
observe) and by event traces recording which requests were issued.
-/

namespace TAT

instance {ε α : Type} [DecidableEq ε] [DecidableEq α] : DecidableEq (Except ε α) :=
  fun x y =>
    match x, y with
    | .ok a, .ok b =>
      if h : a = b then isTrue (by rw [h])
      else isFalse (fun hc => h (Except.ok.inj hc))
    | .error e, .error f =>
      if h : e = f then isTrue (by rw [h])
      else isFalse (fun hc => h (Except.error.inj hc))
    | .ok _, .error _ => isFalse (fun hc => Except.noConfusion hc)
    | .error _, .ok _ => isFalse (fun hc => Except.noConfusion hc)

/-! ## Record Store data model (`db_manager.py`, `models.py`) -/

/-- One row of the `attendance_records` table.  Schema
(`initialize_db`): `uid INTEGER NOT NULL UNIQUE`, `timestamp TEXT NOT NULL
UNIQUE`, `processed BOOLEAN NOT NULL DEFAULT 0`. -/
structure Row where
  id : Nat
  uid : Nat
  user_id : Int
  username : String
  timestamp : String
  status : Int
  punch_type : Int
  processed : Bool
deriving DecidableEq

/-- The `AttendanceRecord` dataclass (`models.py`): the in-memory record
handed to the store.  `uid` is `Optional[int]` in the source. -/
structure AttendanceRecord where
  uid : Option Nat
  user_id : Int
  username : String
  timestamp : String
  status : Int
  punch_type : Int
  processed : Bool
deriving DecidableEq

/-- The record objects returned by `get_attendance_records` (built from the
selected rows; note the source does not copy `uid` back). -/
structure FetchedRecord where
  id : Nat
  user_id : Int
  username : String
  timestamp : String
  status : Int
  punch_type : Int
  processed : Bool
deriving DecidableEq

/-- The payload fields of a punch, shared by all three record shapes;
used to compare saved records with fetched ones. -/
structure PunchData where
  user_id : Int
  username : String
  timestamp : String
  status : Int
  punch_type : Int
deriving DecidableEq

def Row.punch (r : Row) : PunchData :=
  ⟨r.user_id, r.username, r.timestamp, r.status, r.punch_type⟩

def AttendanceRecord.punch (r : AttendanceRecord) : PunchData :=
  ⟨r.user_id, r.username, r.timestamp, r.status, r.punch_type⟩

def FetchedRecord.punch (r : FetchedRecord) : PunchData :=
  ⟨r.user_id, r.username, r.timestamp, r.status, r.punch_type⟩

/-- Whether some row of the table already holds this `uid`
(the `UNIQUE` constraint on the `uid` column). -/
def uidTaken (rs : List Row) (u : Nat) : Bool :=
  rs.any (fun r => r.uid == u)

/-- Whether some row of the table already holds this `timestamp`
(the `UNIQUE` constraint on the `timestamp` column). -/
def tsTaken (rs : List Row) (t : String) : Bool :=
  rs.any (fun r => r.timestamp == t)

/-- SQLite assigns `INTEGER PRIMARY KEY` ids as one more than the largest
id in use. -/
def nextId (rs : List Row) : Nat :=
  rs.foldl (fun m r => max m r.id) 0 + 1

/-- One `INSERT OR IGNORE INTO attendance_records (uid, user_id, username,
timestamp, status, punch_type) VALUES (...)` from `save_attendance_records`:
the row is skipped (not an error) when a constraint is violated — a NULL
`uid` (NOT NULL), a duplicate `uid`, or a duplicate `timestamp`.  The
`processed` column is not in the column list, so it takes its DEFAULT 0. -/
def insertOrIgnore (rs : List Row) (r : AttendanceRecord) : List Row :=
  match r.uid with
  | none => rs
  | some u =>
    if uidTaken rs u || tsTaken rs r.timestamp then rs
    else rs ++ [⟨nextId rs, u, r.user_id, r.username, r.timestamp,
                 r.status, r.punch_type, false⟩]

/-- `DatabaseManager.save_attendance_records`: early-return on an empty
list, otherwise one `INSERT OR IGNORE` per record. -/
def save_attendance_records (records : List AttendanceRecord) (rs : List Row) :
    List Row :=
  if records.isEmpty then rs
  else records.foldl insertOrIgnore rs

/-- `SELECT MAX(uid) FROM attendance_records`: SQL `MAX` over an empty
table is NULL, modelled as `none`. -/
def maxUid (rs : List Row) : Option Nat :=
  if rs.isEmpty then none
  else some (rs.foldl (fun m r => max m r.uid) 0)

/-- `DatabaseManager.save_attendance_record`: computes
`max_uid = max_uid + 1 if max_uid > 2000000 else 2000000` and then runs a
plain `INSERT` (no `OR IGNORE`).  When the table is empty `MAX(uid)` is
`None` and the Python comparison `None > 2000000` raises a `TypeError`;
when the computed uid or the timestamp is already present, the `UNIQUE`
constraint makes the `INSERT` raise an `IntegrityError`.  The supplied
record's own `uid` field is never consulted. -/
def save_attendance_record (record : AttendanceRecord) (rs : List Row) :
    Except String (List Row) :=
  match maxUid rs with
  | none => .error "TypeError: not supported between instances of NoneType and int"
  | some m =>
    let newUid := if m > 2000000 then m + 1 else 2000000
    if uidTaken rs newUid || tsTaken rs record.timestamp then
      .error "IntegrityError: UNIQUE constraint failed"
    else
      .ok (rs ++ [⟨nextId rs, newUid, record.user_id, record.username,
                   record.timestamp, record.status, record.punch_type,
                   record.processed⟩])

/-- `ordered_insert`/`insertion sort` pair modelling the
`ORDER BY timestamp ASC` of `get_attendance_records` (any sort by the
timestamp column is an adequate model of the SQL ordering). -/
def orderedInsertTs (r : Row) : List Row → List Row
  | [] => [r]
  | x :: xs =>
    if r.timestamp ≤ x.timestamp then r :: x :: xs
    else x :: orderedInsertTs r xs

def sortByTs : List Row → List Row
  | [] => []
  | x :: xs => orderedInsertTs x (sortByTs xs)

/-- `DatabaseManager.get_attendance_records(filter_processed=None,
order_by='timestamp')`: optional `WHERE processed = ?`, then
`ORDER BY timestamp ASC`; each selected row is rebuilt as an
`AttendanceRecord` object (without `uid`). -/
def get_attendance_records (filter_processed : Option Bool) (rs : List Row) :
    List FetchedRecord :=
  let filtered :=
    match filter_processed with
    | none => rs
    | some b => rs.filter (fun r => r.processed == b)
  (sortByTs filtered).map
    (fun r => ⟨r.id, r.user_id, r.username, r.timestamp, r.status,
               r.punch_type, r.processed⟩)

/-- The ad-hoc timestamp normalization of `mark_records_processed`:
`ts.replace("T", " ")`.  For the single-character pattern `"T"` this is
exactly a character map. -/
def normalizeTs (ts : String) : String :=
  String.mk (ts.data.map (fun c => if c = 'T' then ' ' else c))

/-- `DatabaseManager.mark_records_processed(timestamps)`: early-return on an
empty list; otherwise `UPDATE attendance_records SET processed = 1 WHERE
timestamp IN (...)` over the normalized input timestamps. -/
def mark_records_processed (timestamps : List String) (rs : List Row) :
    List Row :=
  if timestamps.isEmpty then rs
  else
    let formatted := timestamps.map normalizeTs
    rs.map (fun r =>
      if formatted.contains r.timestamp then { r with processed := true }
      else r)

/-! ## Session Client (`api_client.py`)

HTTP traffic is modelled by environment records carrying, per request the
code can send, the parts of the response the code observes; each operation
also returns the trace of requests it actually issued. -/

/-- The HTTP requests the client issues. -/
inductive Ev
  | helloReq
  | loginReq
  | importReq
  | pointingsReq
  | uploadReq
deriving DecidableEq

/-- The mutable per-instance state of `APIClient`: the session cookie jar
entry for `XSRF-TOKEN` plus the two stored tokens. -/
structure ClientState where
  cookie : Option String
  xsrf_token : Option String
  jwt_token : Option String
deriving DecidableEq

/-- What the environment answers to one authentication handshake: the
status of `GET /auth/hello` and any `XSRF-TOKEN` cookie it sets, the status
of `POST /auth/login`, any cookie rotation on it, and the `access_token`
field of its JSON body. -/
structure AuthEnv where
  helloStatus : Nat
  helloCookie : Option String
  loginStatus : Nat
  loginCookie : Option String
  accessToken : Option String
deriving DecidableEq

/-- `APIClient.authenticate`: the two-step handshake.  A response cookie
replaces the jar entry; absence of a `Set-Cookie` leaves the previous jar
entry in place. -/
def authenticate (env : AuthEnv) (st : ClientState) :
    Bool × ClientState × List Ev :=
  if env.helloStatus ≠ 200 then (false, st, [.helloReq])
  else
    let cookie1 :=
      match env.helloCookie with
      | some c => some c
      | none => st.cookie
    match cookie1 with
    | none => (false, st, [.helloReq])
    | some c =>
      let st1 : ClientState := ⟨some c, some c, st.jwt_token⟩
      if env.loginStatus ≠ 200 then (false, st1, [.helloReq, .loginReq])
      else
        let cookie2 :=
          match env.loginCookie with
          | some c2 => some c2
          | none => st1.cookie
        let st2 : ClientState :=
          match cookie2 with
          | some c2 => ⟨some c2, some c2, st1.jwt_token⟩
          | none => st1
        match env.accessToken with
        | some t => (true, ⟨st2.cookie, st2.xsrf_token, some t⟩,
                     [.helloReq, .loginReq])
        | none => (false, st2, [.helloReq, .loginReq])

/-- The headers `get_auth_headers` builds from the stored tokens. -/
structure Headers where
  xsrf : Option String
  bearer : Option String
deriving DecidableEq

/-- `APIClient.get_auth_headers`: unconditionally re-runs `authenticate()`
and raises `Exception("Authentication required")` when it fails. -/
def get_auth_headers (env : AuthEnv) (st : ClientState) :
    Except String Headers × ClientState × List Ev :=
  match authenticate env st with
  | (true, st1, tr) => (.ok ⟨st1.xsrf_token, st1.jwt_token⟩, st1, tr)
  | (false, st1, tr) => (.error "Authentication required", st1, tr)

/-- The fields of the pointing-import snapshot that `upload_data` reads;
the remaining keys of the JSON object are opaque payload with no effect on
control flow. -/
structure PointingImport where
  status : Option String
  jobExecutionId : Option Nat
deriving DecidableEq

/-- Environment for one `get_pointing_import` call. -/
structure ImportEnv where
  auth : AuthEnv
  respStatus : Nat
  respData : PointingImport
deriving DecidableEq

/-- `APIClient.get_pointing_import`: authenticates (raising on failure,
before any request is sent), issues the GET, returns the snapshot on 200
and raises (`raise_for_status` / the trailing `raise`) otherwise. -/
def get_pointing_import (env : ImportEnv) (st : ClientState) :
    Except String PointingImport × ClientState × List Ev :=
  match get_auth_headers env.auth st with
  | (.error e, st1, tr) => (.error e, st1, tr)
  | (.ok _, st1, tr) =>
    if env.respStatus = 200 then (.ok env.respData, st1, tr ++ [.importReq])
    else (.error ("HTTPError " ++ toString env.respStatus), st1,
          tr ++ [.importReq])

/-- One pointing object returned by the pointings endpoint. -/
structure Pointing where
  entrance : Option String
  wayOut : Option String
deriving DecidableEq

/-- `APIClient.transform_data`: flattens each pointing into its truthy
entrance/exit timestamps (Python truthiness: `None` and `""` contribute
nothing).  The source's `exit` key is modelled by the `wayOut` field. -/
def transform_data (pointings : List Pointing) : List String :=
  pointings.foldl (fun result p =>
    let result1 :=
      match p.entrance with
      | some e => if e.isEmpty then result else result ++ [e]
      | none => result
    match p.wayOut with
    | some x => if x.isEmpty then result1 else result1 ++ [x]
    | none => result1) []

/-- Environment for one `get_pointings_with_job_id` call. -/
structure PointingsEnv where
  auth : AuthEnv
  respStatus : Nat
  respData : List Pointing
deriving DecidableEq

/-- `APIClient.get_pointings_with_job_id`: authenticates (raising on
failure, before any request is sent), issues the GET, returns the
flattened timestamps on 200 and raises otherwise. -/
def get_pointings_with_job_id (env : PointingsEnv) (st : ClientState) :
    Except String (List String) × ClientState × List Ev :=
  match get_auth_headers env.auth st with
  | (.error e, st1, tr) => (.error e, st1, tr)
  | (.ok _, st1, tr) =>
    if env.respStatus = 200 then
      (.ok (transform_data env.respData), st1, tr ++ [.pointingsReq])
    else
      (.error ("HTTPError " ++ toString env.respStatus), st1,
       tr ++ [.pointingsReq])

/-- The dict `upload_attendance` returns:
`{'success': ..., 'jobExecutionId': ...}` or `{'success': ..., 'message': ...}`. -/
structure UploadResult where
  success : Bool
  jobExecutionId : Option Nat
  message : Option String
deriving DecidableEq

/-- Environment for one attempt of `upload_attendance`: the auth handshake
it starts with, the POST response, and the handshake consumed by the
re-authentication on the 401 branch. -/
structure UploadAttempt where
  auth : AuthEnv
  respStatus : Nat
  jobId : Option Nat
  respText : String
  reauth : AuthEnv
deriving DecidableEq

/-- `APIClient.upload_attendance`: returns a failure dict when the file is
missing; otherwise authenticates via `get_auth_headers` (a failure is
caught by the surrounding `except` and becomes a failure dict), posts the
file, and on a 401 re-authenticates and calls itself again — an unbounded
recursion, one oracle attempt consumed per recursive call.  The `[]`
oracle case is a modelling artifact (the source always receives some
response); no theorem relies on it. -/
def upload_attendance (fileExists : Bool) :
    List UploadAttempt → ClientState → UploadResult × ClientState × List Ev
  | attempts, st =>
    if fileExists = false then (⟨false, none, some "File not found"⟩, st, [])
    else
      match attempts with
      | [] => (⟨false, none, some "no further responses"⟩, st, [])
      | a :: rest =>
        match get_auth_headers a.auth st with
        | (.error e, st1, tr) => (⟨false, none, some e⟩, st1, tr)
        | (.ok _, st1, tr) =>
          if a.respStatus = 200 then
            (⟨true, a.jobId, none⟩, st1, tr ++ [.uploadReq])
          else if a.respStatus = 401 then
            match authenticate a.reauth st1 with
            | (true, st2, tr2) =>
              let r3 := upload_attendance fileExists rest st2
              (r3.1, r3.2.1, tr ++ [.uploadReq] ++ tr2 ++ r3.2.2)
            | (false, st2, tr2) =>
              (⟨false, none, some "Re-authentication failed"⟩, st2,
               tr ++ [.uploadReq] ++ tr2)
          else
            (⟨false, none, some ("API Error: " ++ a.respText)⟩, st1,
             tr ++ [.uploadReq])

/-! ## Upload Reconciler (`api_uploader.py`) -/

/-- The `response_data` payload stored in an audit row: the upload-response
dict, a pointing-import snapshot, or a stringified exception. -/
inductive RespData
  | upload (r : UploadResult)
  | snapshot (p : PointingImport)
  | text (s : String)
deriving DecidableEq

/-- One row of the `api_upload_logs` table (`APIUploadLog` /
`log_api_upload`). -/
structure AuditRow where
  batch_id : String
  file_path : String
  records_count : Nat
  status : String
  response_data : RespData
deriving DecidableEq

/-- `DatabaseManager.log_api_upload`: append-only insert. -/
def log_api_upload (log : AuditRow) (logs : List AuditRow) : List AuditRow :=
  logs ++ [log]

/-- What `create_excel_report` draws from outside: the fresh random batch
id, the clock-derived filename stamp, and whether the spreadsheet write
(`to_excel`) raises. -/
structure ExcelEnv where
  batchId : String
  nowStamp : String
  writeResult : Except String Unit

/-- The dict `create_excel_report` returns. -/
structure ExportInfo where
  batch_id : String
  file_path : String
  records_count : Nat
deriving DecidableEq

/-- `APIUploader.create_excel_report`: `None` on an empty record list,
otherwise writes `exports/attendance_<stamp>_<batch>.xlsx` (which can
raise) and returns the export info. -/
def create_excel_report (env : ExcelEnv) (records : List FetchedRecord) :
    Except String (Option ExportInfo) :=
  if records.isEmpty then .ok none
  else
    let filename :=
      "exports/attendance_" ++ env.nowStamp ++ "_" ++ env.batchId ++ ".xlsx"
    match env.writeResult with
    | .error e => .error e
    | .ok _ => .ok (some ⟨env.batchId, filename, records.length⟩)

/-- Everything one `upload_data` cycle observes from outside the store:
the export-file environment, the result of `upload_attendance`, how many
times the wall clock still satisfies `end_time > datetime.now()` at the
loop head (`budget`), the outcome of the i-th `get_pointing_import` call
(`.error` meaning the call raised), and the outcome of the
`get_pointings_with_job_id` call of the COMPLETED branch. -/
structure CycleEnv where
  excel : ExcelEnv
  upload : UploadResult
  budget : Nat
  polls : Nat → Except String PointingImport
  pointings : Except String (List String)

/-- Whether `self.api_client` was already set, and the outcome of
`initialize()` (config present and `authenticate()` true) when it was not. -/
structure InitEnv where
  clientPresent : Bool
  initOk : Bool
deriving DecidableEq

/-- The state `upload_data` leaves behind: the attendance rows, the audit
rows, whether `upload_attendance` was invoked, and the exception escaping
`upload_data`, if any. -/
structure CycleResult where
  records : List Row
  logs : List AuditRow
  submitted : Bool
  raised : Option String
deriving DecidableEq

/-- An ERROR audit row as built by the top-level `except` handler. -/
def errAudit (info : ExportInfo) (e : String) : AuditRow :=
  ⟨info.batch_id, info.file_path, info.records_count, "ERROR", .text e⟩

/-- The `while end_time > datetime.now()` polling loop of `upload_data`
(lines 106–133), plus the code that follows it.  `budget` counts the loop
head checks that still pass; `i` indexes `get_pointing_import` calls.
When the loop exits by deadline the control falls through to the
`# Log successful upload` block, which writes a SUCCESS audit row.  On
COMPLETED the records matching the fetched timestamps are marked processed
and the function returns — without reaching that block.  Exceptions
(a raising poll, a raising pointings fetch, or the unknown-status `raise`)
are caught by the top-level handler, which writes an ERROR audit row. -/
def pollLoop (env : CycleEnv) (info : ExportInfo) (response : UploadResult)
    (i : Nat) (budget : Nat) (db : List Row) (logs : List AuditRow) :
    CycleResult :=
  match budget with
  | 0 =>
    ⟨db,
     log_api_upload ⟨info.batch_id, info.file_path, info.records_count,
                     "SUCCESS", .upload response⟩ logs,
     true, none⟩
  | b + 1 =>
    match env.polls i with
    | .error e => ⟨db, log_api_upload (errAudit info e) logs, true, none⟩
    | .ok pi =>
      if pi.status = some "COMPLETED" then
        match env.pointings with
        | .error e => ⟨db, log_api_upload (errAudit info e) logs, true, none⟩
        | .ok evts =>
          if evts.length > 0 then
            ⟨mark_records_processed evts db, logs, true, none⟩
          else
            ⟨db, logs, true, none⟩
      else if pi.status = some "STARTED" ∨ pi.status = some "STARTING" then
        pollLoop env info response (i + 1) b db logs
      else if pi.status = some "FAILED" ∨ pi.status = some "STOPPED" then
        ⟨db,
         log_api_upload ⟨info.batch_id, info.file_path, info.records_count,
                         "FAILED", .snapshot pi⟩ logs,
         true, none⟩
      else
        ⟨db,
         log_api_upload (errAudit info "Pointing Import with unknown status")
           logs,
         true, none⟩

/-- `APIUploader.upload_data`: lazily sets up the client (returning when
that fails), reads `get_attendance_records()` — note: with its default
`filter_processed=None`, i.e. all rows — returns on an empty read, builds
the export (outside the `try`, so a raising export propagates), submits,
and on success enters the bounded polling loop; a non-success submission
writes a FAILED audit row. -/
def upload_data (ienv : InitEnv) (env : CycleEnv) (db : List Row)
    (logs : List AuditRow) : CycleResult :=
  if ienv.clientPresent = false ∧ ienv.initOk = false then
    ⟨db, logs, false, none⟩
  else
    let records := get_attendance_records none db
    if records.isEmpty then ⟨db, logs, false, none⟩
    else
      match create_excel_report env.excel records with
      | .error e => ⟨db, logs, false, some e⟩
      | .ok none => ⟨db, logs, false, none⟩
      | .ok (some info) =>
        let response := env.upload
        if response.success then
          pollLoop env info response 0 env.budget db logs
        else
          ⟨db,
           log_api_upload ⟨info.batch_id, info.file_path, info.records_count,
                           "FAILED", .upload response⟩ logs,
           true, none⟩

/-! ## Concrete fixtures used by the closed theorems -/

/-- A store row already marked processed. -/
def rowProcessed : Row := ⟨1, 10, 5, "alice", "2025-03-20 08:00:00", 1, 0, true⟩

/-- A store row not yet processed. -/
def rowUnprocessed : Row := ⟨1, 10, 5, "alice", "2025-03-20 08:00:00", 1, 0, false⟩

/-- A cycle environment whose submission reports failure. -/
def envFailUpload : CycleEnv :=
  ⟨⟨"b1", "20250320090000", .ok ()⟩, ⟨false, none, some "API Error: bad file"⟩,
   0, fun _ => .error "unused", .error "unused"⟩

/-- A cycle environment: submission succeeds, the first poll reports
COMPLETED, and the reconciled-events fetch returns one `T`-separated
timestamp matching `rowUnprocessed`. -/
def envCompleted : CycleEnv :=
  ⟨⟨"b1", "20250320090000", .ok ()⟩, ⟨true, some 7, none⟩, 15,
   fun _ => .ok ⟨some "COMPLETED", some 7⟩, .ok ["2025-03-20T08:00:00"]⟩

/-- A cycle environment: submission succeeds, every poll reports STARTED,
and the wall-clock deadline admits exactly one loop iteration. -/
def envTimeout : CycleEnv :=
  ⟨⟨"b1", "20250320090000", .ok ()⟩, ⟨true, some 7, none⟩, 1,
   fun _ => .ok ⟨some "STARTED", none⟩, .ok []⟩

/-- A cycle environment whose spreadsheet write raises. -/
def envExcelBoom : CycleEnv :=
  ⟨⟨"b1", "20250320090000", .error "PermissionError: exports not writable"⟩,
   ⟨true, some 7, none⟩, 15, fun _ => .ok ⟨some "COMPLETED", some 7⟩, .ok []⟩

/-- A record handed to `save_attendance_record` (its `uid` field is never
consulted by that operation). -/
def recNew : AttendanceRecord := ⟨none, 5, "alice", "2025-03-20 08:00:00", 1, 0, false⟩

/-- A stored row holding exactly the reserved base uid 2000000. -/
def rowBase : Row := ⟨1, 2000000, 5, "bob", "2025-03-19 08:00:00", 1, 0, false⟩

/-- A stored row holding uid 2000001 (one above the reserved base). -/
def rowBase1 : Row := ⟨1, 2000001, 5, "bob", "2025-03-19 08:00:00", 1, 0, false⟩

/-- An authentication environment that succeeds from any client state. -/
def okAuth : AuthEnv := ⟨200, some "c", 200, none, some "tok"⟩

/-- An authentication environment whose hello request fails. -/
def badAuth : AuthEnv := ⟨500, none, 200, none, some "tok"⟩

/-- An upload attempt answered with 401 (with working handshakes). -/
def att401 : UploadAttempt := ⟨okAuth, 401, none, "", okAuth⟩

/-- An upload attempt answered with 200 and job execution id 9. -/
def att200 : UploadAttempt := ⟨okAuth, 200, some 9, "", okAuth⟩

/-- A fresh, unauthenticated client state. -/
def st0 : ClientState := ⟨none, none, none⟩

/-- Two records with the same uid but distinct timestamps. -/
def recA : AttendanceRecord := ⟨some 5, 1, "a", "2025-03-20 08:00:00", 1, 0, false⟩

def recB : AttendanceRecord := ⟨some 5, 2, "b", "2025-03-20 09:00:00", 1, 0, false⟩

/-- A record with a distinct uid, for the amended roundtrip witness. -/
def recC : AttendanceRecord := ⟨some 6, 2, "b", "2025-03-20 09:00:00", 1, 0, false⟩

/-! ## Derived predicates and helper lemmas -/

/-- The store's timestamp-uniqueness invariant (the `UNIQUE` constraint on
the `timestamp` column). -/
abbrev uniqueTs (rs : List Row) : Prop := (rs.map Row.timestamp).Nodup

/-- Number of stored rows holding a given timestamp. -/
def tsCount (rs : List Row) (t : String) : Nat :=
  rs.countP (fun r => r.timestamp == t)

theorem contains_singleton (x y : String) : [x].contains y = (y == x) := by
  cases h : y == x <;> simp [List.contains, List.elem, h]

theorem tsTaken_false_iff {rs : List Row} {t : String} :
    tsTaken rs t = false ↔ ∀ r ∈ rs, ¬ r.timestamp = t := by
  simp [tsTaken, List.any_eq_false]

theorem insertOrIgnore_uniqueTs {s : List Row} {r : AttendanceRecord}
    (h : uniqueTs s) : uniqueTs (insertOrIgnore s r) := by
  rcases hu : r.uid with _ | u
  · simpa [insertOrIgnore, hu] using h
  · by_cases hc : (uidTaken s u || tsTaken s r.timestamp) = true
    · simpa [insertOrIgnore, hu, hc] using h
    · have hc2 : (uidTaken s u || tsTaken s r.timestamp) = false := by
        simpa using hc
      rcases Bool.or_eq_false_iff.mp hc2 with ⟨h1, hts⟩
      have hmem : r.timestamp ∉ s.map Row.timestamp := by
        rw [List.mem_map]
        rintro ⟨q, hq, hq2⟩
        exact (tsTaken_false_iff.mp hts) q hq hq2
      have he : insertOrIgnore s r =
          s ++ [⟨nextId s, u, r.user_id, r.username, r.timestamp,
                 r.status, r.punch_type, false⟩] := by
        simp [insertOrIgnore, hu, hc2]
      rw [uniqueTs, he, ← List.concat_eq_append, List.map_concat]
      exact List.Nodup.concat hmem h

theorem save_uniqueTs_all (recs : List AttendanceRecord) :
    ∀ s, uniqueTs s → uniqueTs (save_attendance_records recs s) := by
  have hf : ∀ (l : List AttendanceRecord) (s), uniqueTs s →
      uniqueTs (l.foldl insertOrIgnore s) := by
    intro l
    induction l with
    | nil => intro s h; exact h
    | cons r rest ih =>
      intro s h
      exact ih _ (insertOrIgnore_uniqueTs h)
  intro s h
  unfold save_attendance_records
  split
  · exact h
  · exact hf recs s h

theorem tsCount_eq_zero {rs : List Row} {t : String}
    (h : tsTaken rs t = false) : tsCount rs t = 0 := by
  rw [tsCount, List.countP_eq_zero]
  intro q hq
  simpa using (tsTaken_false_iff.mp h) q hq

/-! ## Claims -/

/-- C1: the spec says `upload_data()` reads exactly the unprocessed records
and, when zero unprocessed records exist, performs no HTTP submission and
writes no audit entry.  The code calls `get_attendance_records()` with its
default `filter_processed=None`, which selects ALL rows — contradicting the
code's own comment ("Get unprocessed records") and log message.  With a
store holding one already-processed row and zero unprocessed rows, the
cycle still submits and writes an audit row. -/
theorem C1_upload_reads_all_records :
    get_attendance_records (some false) [rowProcessed] = [] ∧
    (upload_data ⟨true, true⟩ envFailUpload [rowProcessed] []).submitted = true ∧
    (upload_data ⟨true, true⟩ envFailUpload [rowProcessed] []).logs ≠ [] := by
  decide

/-- C2: the spec says a COMPLETED poll with M reconciled events ends the
cycle with the M matching records marked processed and exactly one SUCCESS
audit entry.  The code does mark the records, but then `return`s from the
COMPLETED branch without reaching the `# Log successful upload` block, so
no audit row at all is written: with one unprocessed record and one
matching reconciled event the final audit log is empty. -/
theorem C2_completed_marks_but_writes_no_audit :
    upload_data ⟨true, true⟩ envCompleted [rowUnprocessed] [] =
      ⟨[{ rowUnprocessed with processed := true }], [], true, none⟩ := by
  decide

/-- C3: the spec says an expired polling deadline ends the cycle with no
audit entry and no processed-flag change.  Exiting the `while` loop by
deadline makes control fall through to the `# Log successful upload`
block, so the code writes a SUCCESS audit row on timeout (records are
indeed unchanged). -/
theorem C3_timeout_writes_success_audit :
    (upload_data ⟨true, true⟩ envTimeout [rowUnprocessed] []).records =
      [rowUnprocessed] ∧
    (upload_data ⟨true, true⟩ envTimeout [rowUnprocessed] []).logs.map
      AuditRow.status = ["SUCCESS"] := by
  decide

/-- C9: the spec says `save_attendance_record` assigns max+1 starting at
the reserved base 2,000,000 — including on an empty store — without
colliding.  The code compares `MAX(uid) > 2000000`: on an empty store
`MAX(uid)` is `None` and the comparison raises a `TypeError`; when the
maximum is exactly 2,000,000 the code assigns 2,000,000 again and the
`UNIQUE` constraint rejects the insert.  Only above the base does the
intended max+1 assignment happen. -/
theorem C9_fake_uid_assignment_fails :
    save_attendance_record recNew [] =
      .error "TypeError: not supported between instances of NoneType and int" ∧
    save_attendance_record recNew [rowBase] =
      .error "IntegrityError: UNIQUE constraint failed" ∧
    save_attendance_record recNew [rowBase1] =
      .ok [rowBase1, ⟨2, 2000002, 5, "alice", "2025-03-20 08:00:00", 1, 0,
                      false⟩] := by
  decide

/-- C4 counterexample: the claim says every exception raised during steps
3–5 (export building included) is caught and audited.  `create_excel_report`
is called before the `try:` block, so a raising spreadsheet write escapes
`upload_data` with no audit row written. -/
theorem C4_export_exception_propagates :
    upload_data ⟨true, true⟩ envExcelBoom [rowUnprocessed] [] =
      ⟨[rowUnprocessed], [], false,
       some "PermissionError: exports not writable"⟩ := by
  decide

/-- C5 counterexample: the claim says an unauthorized upload is retried at
most once.  The 401 branch re-authenticates and calls `upload_attendance`
recursively with no retry counter: two consecutive 401 responses followed
by a 200 produce three upload requests (and still a success result), which
a retry bound of one would forbid. -/
theorem C5_retry_not_bounded_by_one :
    (upload_attendance true [att401, att401, att200] st0).2.2.count
      Ev.uploadReq = 3 ∧
    (upload_attendance true [att401, att401, att200] st0).1 =
      ⟨true, some 9, none⟩ := by
  decide

/-- C8 counterexample: the claim asks only for pairwise-unique timestamps,
but the `uid` column is `UNIQUE` as well and `INSERT OR IGNORE` silently
drops the second of two records sharing a uid: saving two records with
distinct timestamps and equal uid 5 stores a single row, so the read-back
cannot be a permutation of the two saved records. -/
theorem C8_roundtrip_fails_on_duplicate_uid :
    ([recA, recB].map AttendanceRecord.timestamp).Nodup ∧
    ¬ ((get_attendance_records none
          (save_attendance_records [recA, recB] [])).map FetchedRecord.punch).Perm
        ([recA, recB].map AttendanceRecord.punch) := by
  decide

/-- C6: `mark_records_processed([])` leaves the store unchanged; and
`mark_records_processed([u])` — matching after normalizing the input
timestamp `u` to the store's space-separated representation — sets the
`processed` flag of precisely the records whose stored timestamp equals
the normalized input, leaving every other record and every other field
untouched; under the store's timestamp-uniqueness invariant exactly the
one matching record changes. -/
theorem C6_mark_processed_frame :
    (∀ rs : List Row, mark_records_processed [] rs = rs) ∧
    (∀ (u : String) (rs : List Row),
       mark_records_processed [u] rs =
         rs.map (fun r =>
           if r.timestamp = normalizeTs u then { r with processed := true }
           else r)) ∧
    (∀ (u : String) (rs : List Row) (r : Row),
       r ∈ rs → uniqueTs rs → r.timestamp = normalizeTs u →
       mark_records_processed [u] rs =
         rs.map (fun q =>
           if q = r then { q with processed := true } else q)) := by
  have h2 : ∀ (u : String) (rs : List Row),
      mark_records_processed [u] rs =
        rs.map (fun r =>
          if r.timestamp = normalizeTs u then { r with processed := true }
          else r) := by
    intro u rs
    simp only [mark_records_processed, List.isEmpty_cons, List.map_cons,
      List.map_nil]
    apply List.map_congr_left
    intro q hq
    simp only [contains_singleton]
    by_cases h : q.timestamp = normalizeTs u <;> simp [h]
  refine ⟨fun rs => rfl, h2, ?_⟩
  intro u rs r hr hnd hts
  rw [h2]
  apply List.map_congr_left
  intro q hq
  by_cases hqr : q = r
  · subst hqr; simp [hts]
  · have hne : q.timestamp ≠ normalizeTs u := by
      intro hq2
      exact hqr (List.inj_on_of_nodup_map hnd hq hr (hq2.trans hts.symm))
    simp [hne, hqr]

theorem C6_mark_processed_frame_witness :
    mark_records_processed [] [rowUnprocessed] = [rowUnprocessed] ∧
    mark_records_processed ["2025-03-20T08:00:00"] [rowUnprocessed, rowBase] =
      [{ rowUnprocessed with processed := true }, rowBase] := by
  constructor
  · exact C6_mark_processed_frame.1 [rowUnprocessed]
  · have h := C6_mark_processed_frame.2.2 "2025-03-20T08:00:00"
      [rowUnprocessed, rowBase] rowUnprocessed (by decide) (by decide)
      (by decide)
    rw [h]; decide

/-- C7: timestamp uniqueness is an invariant of the store under
`save_attendance_records` (arbitrary insert attempts), and inserting two
records sharing a timestamp (the first otherwise insertable) results in
exactly one stored row for that timestamp — the `INSERT OR IGNORE`
silently skips the duplicate, the operation being total rather than
raising. -/
theorem C7_timestamp_uniqueness_invariant :
    (∀ (recs : List AttendanceRecord) (s : List Row),
       uniqueTs s → uniqueTs (save_attendance_records recs s)) ∧
    (∀ (s : List Row) (r1 r2 : AttendanceRecord) (u : Nat),
       r1.uid = some u → uidTaken s u = false →
       r2.timestamp = r1.timestamp → tsTaken s r1.timestamp = false →
       tsCount (save_attendance_records [r1, r2] s) r1.timestamp = 1) := by
  refine ⟨fun recs s h => save_uniqueTs_all recs s h, ?_⟩
  intro s r1 r2 u hu huid hts2 hts
  have h1 : insertOrIgnore s r1 =
      s ++ [⟨nextId s, u, r1.user_id, r1.username, r1.timestamp,
             r1.status, r1.punch_type, false⟩] := by
    simp [insertOrIgnore, hu, huid, hts]
  have h2 : insertOrIgnore (insertOrIgnore s r1) r2 = insertOrIgnore s r1 := by
    rw [h1]
    rcases hu2 : r2.uid with _ | u2
    · simp [insertOrIgnore, hu2]
    · have htrue : tsTaken (s ++ [⟨nextId s, u, r1.user_id, r1.username,
          r1.timestamp, r1.status, r1.punch_type, false⟩]) r2.timestamp
          = true := by
        simp [tsTaken, List.any_append, hts2]
      simp [insertOrIgnore, hu2, htrue]
  have hsave : save_attendance_records [r1, r2] s =
      insertOrIgnore (insertOrIgnore s r1) r2 := rfl
  have h0 : tsCount s r1.timestamp = 0 := tsCount_eq_zero hts
  rw [hsave, h2, h1]
  simp only [tsCount, List.countP_append, List.countP_cons,
    List.countP_nil] at h0 ⊢
  simp [h0]

theorem C7_timestamp_uniqueness_invariant_witness :
    uniqueTs (save_attendance_records [recA, recA] []) ∧
    tsCount (save_attendance_records [recA, recA] []) recA.timestamp = 1 := by
  constructor
  · exact C7_timestamp_uniqueness_invariant.1 [recA, recA] [] (by decide)
  · exact C7_timestamp_uniqueness_invariant.2 [] recA recA 5 (by decide)
      (by decide) (by decide) (by decide)

theorem orderedInsertTs_perm (r : Row) (l : List Row) :
    (orderedInsertTs r l).Perm (r :: l) := by
  induction l with
  | nil => exact List.Perm.refl _
  | cons x xs ih =>
    simp only [orderedInsertTs]
    split
    · exact List.Perm.refl _
    · exact (ih.cons x).trans (List.Perm.swap r x xs)

theorem sortByTs_perm (l : List Row) : (sortByTs l).Perm l := by
  induction l with
  | nil => exact List.Perm.refl _
  | cons x xs ih =>
    exact (orderedInsertTs_perm x (sortByTs xs)).trans (ih.cons x)

theorem tsTaken_append_single (s : List Row) (row : Row) (t : String) :
    tsTaken (s ++ [row]) t = (tsTaken s t || (row.timestamp == t)) := by
  simp [tsTaken, List.any_append]

theorem uidTaken_append_single (s : List Row) (row : Row) (u : Nat) :
    uidTaken (s ++ [row]) u = (uidTaken s u || (row.uid == u)) := by
  simp [uidTaken, List.any_append]

theorem foldl_insert_punches (recs : List AttendanceRecord) :
    ∀ s : List Row,
    (∀ r ∈ recs, r.uid ≠ none) →
    (∀ r ∈ recs, tsTaken s r.timestamp = false) →
    (∀ r ∈ recs, ∀ u, r.uid = some u → uidTaken s u = false) →
    (recs.map AttendanceRecord.timestamp).Nodup →
    (recs.map AttendanceRecord.uid).Nodup →
    (recs.foldl insertOrIgnore s).map Row.punch =
      s.map Row.punch ++ recs.map AttendanceRecord.punch := by
  induction recs with
  | nil => intro s _ _ _ _ _; simp
  | cons r rest ih =>
    intro s h1 h2 h3 h4 h5
    rw [List.map_cons, List.nodup_cons] at h4 h5
    obtain ⟨u, hu⟩ : ∃ u, r.uid = some u := by
      cases hv : r.uid with
      | none => exact absurd hv (h1 r (by simp))
      | some u => exact ⟨u, rfl⟩
    have huid : uidTaken s u = false := h3 r (by simp) u hu
    have hts : tsTaken s r.timestamp = false := h2 r (by simp)
    have hins : insertOrIgnore s r =
        s ++ [⟨nextId s, u, r.user_id, r.username, r.timestamp,
               r.status, r.punch_type, false⟩] := by
      simp [insertOrIgnore, hu, huid, hts]
    have hA : ∀ r2 ∈ rest, r2.uid ≠ none :=
      fun r2 hr2 => h1 r2 (List.mem_cons_of_mem _ hr2)
    have hB : ∀ r2 ∈ rest,
        tsTaken (s ++ [⟨nextId s, u, r.user_id, r.username, r.timestamp,
                        r.status, r.punch_type, false⟩]) r2.timestamp
          = false := by
      intro r2 hr2
      have hbase : tsTaken s r2.timestamp = false :=
        h2 r2 (List.mem_cons_of_mem _ hr2)
      have hne : r.timestamp ≠ r2.timestamp := fun he =>
        h4.1 (by rw [he]; exact List.mem_map_of_mem _ hr2)
      simp [tsTaken_append_single, hbase, hne]
    have hC : ∀ r2 ∈ rest, ∀ u2, r2.uid = some u2 →
        uidTaken (s ++ [⟨nextId s, u, r.user_id, r.username, r.timestamp,
                         r.status, r.punch_type, false⟩]) u2 = false := by
      intro r2 hr2 u2 hu2
      have hbase : uidTaken s u2 = false :=
        h3 r2 (List.mem_cons_of_mem _ hr2) u2 hu2
      have hne : u ≠ u2 := by
        intro he
        apply h5.1
        rw [hu, he, ← hu2]
        exact List.mem_map_of_mem _ hr2
      simp [uidTaken_append_single, hbase, hne]
    have hrec := ih _ hA hB hC h4.2 h5.2
    simp only [List.foldl_cons, hins, hrec]
    simp [List.map_append, Row.punch, AttendanceRecord.punch]

/-- C8 (amended): with pairwise-unique timestamps AND pairwise-unique,
non-null uids, `save_attendance_records` into an empty store followed by
`get_attendance_records(None)` returns exactly the saved records (order
aside), comparing the punch payload fields; the uid hypotheses are forced
by the `UNIQUE` constraint on the `uid` column (see the counterexample). -/
theorem C8_amended_roundtrip (recs : List AttendanceRecord)
    (h1 : ∀ r ∈ recs, r.uid ≠ none)
    (h4 : (recs.map AttendanceRecord.timestamp).Nodup)
    (h5 : (recs.map AttendanceRecord.uid).Nodup) :
    ((get_attendance_records none
        (save_attendance_records recs [])).map FetchedRecord.punch).Perm
      (recs.map AttendanceRecord.punch) := by
  have hsave : save_attendance_records recs [] =
      recs.foldl insertOrIgnore [] := by
    unfold save_attendance_records
    split
    · next h => rw [List.isEmpty_iff.mp h]; rfl
    · rfl
  have hrows := foldl_insert_punches recs [] h1 (fun r _ => rfl)
    (fun r _ u _ => rfl) h4 h5
  have hget : ∀ rows : List Row, get_attendance_records none rows =
      (sortByTs rows).map (fun r =>
        (⟨r.id, r.user_id, r.username, r.timestamp, r.status,
          r.punch_type, r.processed⟩ : FetchedRecord)) := fun rows => rfl
  rw [hsave, hget, List.map_map]
  have hcomp : (FetchedRecord.punch ∘ fun r : Row =>
      (⟨r.id, r.user_id, r.username, r.timestamp, r.status,
        r.punch_type, r.processed⟩ : FetchedRecord)) = Row.punch := rfl
  rw [hcomp]
  have hp := (sortByTs_perm (recs.foldl insertOrIgnore [])).map Row.punch
  rw [hrows] at hp
  simpa using hp


theorem C8_amended_roundtrip_witness :
    ((get_attendance_records none
        (save_attendance_records [recA, recC] [])).map FetchedRecord.punch).Perm
      ([recA, recC].map AttendanceRecord.punch) :=
  C8_amended_roundtrip [recA, recC] (by decide) (by decide) (by decide)

theorem pollLoop_raised_none (env : CycleEnv) (info : ExportInfo)
    (response : UploadResult) :
    ∀ (b i : Nat) (db : List Row) (logs : List AuditRow),
    (pollLoop env info response i b db logs).raised = none := by
  intro b
  induction b with
  | zero => intro i db logs; rfl
  | succ b ih =>
    intro i db logs
    simp only [pollLoop]
    cases h : env.polls i with
    | error e => rfl
    | ok pi =>
      dsimp only
      by_cases h1 : pi.status = some "COMPLETED"
      · rw [if_pos h1]
        cases env.pointings with
        | error e => rfl
        | ok evts =>
          dsimp only
          by_cases h2 : evts.length > 0
          · rw [if_pos h2]
          · rw [if_neg h2]
      · rw [if_neg h1]
        by_cases h2 : pi.status = some "STARTED" ∨ pi.status = some "STARTING"
        · rw [if_pos h2]; exact ih (i + 1) db logs
        · rw [if_neg h2]
          by_cases h3 : pi.status = some "FAILED" ∨ pi.status = some "STOPPED"
          · rw [if_pos h3]
          · rw [if_neg h3]

/-- C4 (amended): `upload_data()` propagates an exception exactly when the
export build (step 3) raises — that call sits before the `try:` block and
leaves no audit row; every exception arising during submission or polling
(steps 4–5: a raising poll, a raising reconciled-events fetch, or the
unknown-status `raise`) is caught at the top level, exactly one ERROR
audit row carrying the stringified exception is appended, and the function
returns normally. -/
theorem C4_amended_exception_absorption :
    (∀ (ienv : InitEnv) (env : CycleEnv) (db : List Row)
       (logs : List AuditRow),
       env.excel.writeResult = .ok () →
       (upload_data ienv env db logs).raised = none) ∧
    (∀ (ienv : InitEnv) (env : CycleEnv) (db : List Row)
       (logs : List AuditRow) (e : String),
       ¬ (ienv.clientPresent = false ∧ ienv.initOk = false) →
       get_attendance_records none db ≠ [] →
       env.excel.writeResult = .error e →
       upload_data ienv env db logs = ⟨db, logs, false, some e⟩) ∧
    (∀ (env : CycleEnv) (info : ExportInfo) (response : UploadResult)
       (i b : Nat) (db : List Row) (logs : List AuditRow) (e : String),
       env.polls i = .error e →
       pollLoop env info response i (b + 1) db logs =
         ⟨db, log_api_upload (errAudit info e) logs, true, none⟩) ∧
    (∀ (env : CycleEnv) (info : ExportInfo) (response : UploadResult)
       (i b : Nat) (db : List Row) (logs : List AuditRow) (e : String)
       (pi : PointingImport),
       env.polls i = .ok pi → pi.status = some "COMPLETED" →
       env.pointings = .error e →
       pollLoop env info response i (b + 1) db logs =
         ⟨db, log_api_upload (errAudit info e) logs, true, none⟩) ∧
    (∀ (env : CycleEnv) (info : ExportInfo) (response : UploadResult)
       (i b : Nat) (db : List Row) (logs : List AuditRow)
       (pi : PointingImport),
       env.polls i = .ok pi →
       pi.status ≠ some "COMPLETED" →
       pi.status ≠ some "STARTED" → pi.status ≠ some "STARTING" →
       pi.status ≠ some "FAILED" → pi.status ≠ some "STOPPED" →
       pollLoop env info response i (b + 1) db logs =
         ⟨db, log_api_upload
            (errAudit info "Pointing Import with unknown status") logs,
          true, none⟩) := by
  refine ⟨?_, ?_, ?_, ?_, ?_⟩
  · intro ienv env db logs hok
    simp only [upload_data]
    split
    · rfl
    · split
      · rfl
      · next hne =>
        simp only [create_excel_report, hok, if_neg hne]
        split
        · exact pollLoop_raised_none env _ _ env.budget 0 db logs
        · rfl
  · intro ienv env db logs e hinit hne herr
    have hne2 : ¬ (get_attendance_records none db).isEmpty = true := by
      simpa [List.isEmpty_iff] using hne
    simp only [upload_data, if_neg hinit]
    simp only [create_excel_report, herr, if_neg hne2]
  · intro env info response i b db logs e hpoll
    simp only [pollLoop, hpoll]
  · intro env info response i b db logs e pi hpoll hst hpts
    simp only [pollLoop, hpoll, hst, hpts]
    simp
  · intro env info response i b db logs pi hpoll h1 h2 h3 h4 h5
    simp only [pollLoop, hpoll]
    rw [if_neg h1, if_neg ?hor1, if_neg ?hor2]
    case hor1 => rintro (h | h) <;> [exact h2 h; exact h3 h]
    case hor2 => rintro (h | h) <;> [exact h4 h; exact h5 h]

theorem authenticate_shape (e : AuthEnv) (st : ClientState) :
    ((authenticate e st).1 = false ∧ (authenticate e st).2.2 = [.helloReq]) ∨
    (authenticate e st).2.2 = [.helloReq, .loginReq] := by
  unfold authenticate
  split
  · exact Or.inl ⟨rfl, rfl⟩
  · cases hc : e.helloCookie with
    | some c =>
      dsimp only
      split
      · exact Or.inr rfl
      · cases tok : e.accessToken with
        | some t => exact Or.inr rfl
        | none => exact Or.inr rfl
    | none =>
      dsimp only
      cases hs : st.cookie with
      | none => exact Or.inl ⟨rfl, rfl⟩
      | some c =>
        dsimp only
        split
        · exact Or.inr rfl
        · cases tok : e.accessToken with
          | some t => exact Or.inr rfl
          | none => exact Or.inr rfl

theorem authenticate_trace (e : AuthEnv) (st : ClientState) :
    (authenticate e st).2.2 = [.helloReq] ∨
    (authenticate e st).2.2 = [.helloReq, .loginReq] := by
  rcases authenticate_shape e st with ⟨_, h⟩ | h
  · exact Or.inl h
  · exact Or.inr h

theorem auth_true_trace (e : AuthEnv) (st : ClientState)
    (h : (authenticate e st).1 = true) :
    (authenticate e st).2.2 = [.helloReq, .loginReq] := by
  rcases authenticate_shape e st with ⟨hf, _⟩ | htr
  · rw [h] at hf; exact absurd hf (by simp)
  · exact htr

/-- C5 (amended): an unauthorized upload response followed by a successful
re-authentication makes `upload_attendance` transparently retry the same
upload — the call's result is the result of the retried call, with no
bound of one on the number of retries — and a call whose response is 200
returns `{'success': True, 'jobExecutionId': ...}` exactly as a
first-attempt success does. -/
theorem C5_amended_transparent_retry :
    (∀ (a : UploadAttempt) (rest : List UploadAttempt) (st : ClientState),
       a.respStatus = 401 →
       (authenticate a.auth st).1 = true →
       (authenticate a.reauth (get_auth_headers a.auth st).2.1).1 = true →
       (upload_attendance true (a :: rest) st).1 =
         (upload_attendance true rest
           (authenticate a.reauth (get_auth_headers a.auth st).2.1).2.1).1) ∧
    (∀ (a : UploadAttempt) (rest : List UploadAttempt) (st : ClientState),
       a.respStatus = 200 →
       (authenticate a.auth st).1 = true →
       (upload_attendance true (a :: rest) st).1 =
         ⟨true, a.jobId, none⟩) := by
  constructor
  · intro a rest st h401 hauth hre
    rcases hA : authenticate a.auth st with ⟨b, st1, tr⟩
    rw [hA] at hauth
    simp at hauth
    subst hauth
    have hg : get_auth_headers a.auth st =
        (.ok ⟨st1.xsrf_token, st1.jwt_token⟩, st1, tr) := by
      simp [get_auth_headers, hA]
    rw [hg] at hre ⊢
    rcases hB : authenticate a.reauth st1 with ⟨c, st2, tr2⟩
    rw [hB] at hre
    simp at hre
    subst hre
    simp [upload_attendance, hg, hB, h401]
  · intro a rest st h200 hauth
    rcases hA : authenticate a.auth st with ⟨b, st1, tr⟩
    rw [hA] at hauth
    simp at hauth
    subst hauth
    have hg : get_auth_headers a.auth st =
        (.ok ⟨st1.xsrf_token, st1.jwt_token⟩, st1, tr) := by
      simp [get_auth_headers, hA]
    simp [upload_attendance, hg, h200]

/-- C10: every call to `upload_attendance` (on an existing file),
`get_pointing_import` or `get_pointings_with_job_id` runs the full
two-step handshake (hello + login, via `get_auth_headers`) before issuing
its own HTTP request, from every client state — prior authentication
included; when the handshake fails the two GET operations raise before
any request of their own is sent, while `upload_attendance` returns a
failure dict instead of raising. -/
theorem C10_auth_handshake_per_call :
    (∀ (env : ImportEnv) (st : ClientState),
       ((authenticate env.auth st).1 = false →
          (get_pointing_import env st).1 = .error "Authentication required" ∧
          Ev.importReq ∉ (get_pointing_import env st).2.2) ∧
       ((authenticate env.auth st).1 = true →
          (get_pointing_import env st).2.2 =
            [.helloReq, .loginReq, .importReq])) ∧
    (∀ (env : PointingsEnv) (st : ClientState),
       ((authenticate env.auth st).1 = false →
          (get_pointings_with_job_id env st).1 =
            .error "Authentication required" ∧
          Ev.pointingsReq ∉ (get_pointings_with_job_id env st).2.2) ∧
       ((authenticate env.auth st).1 = true →
          (get_pointings_with_job_id env st).2.2 =
            [.helloReq, .loginReq, .pointingsReq])) ∧
    (∀ (a : UploadAttempt) (rest : List UploadAttempt) (st : ClientState),
       ((authenticate a.auth st).1 = false →
          (upload_attendance true (a :: rest) st).1 =
            ⟨false, none, some "Authentication required"⟩ ∧
          Ev.uploadReq ∉ (upload_attendance true (a :: rest) st).2.2) ∧
       ((authenticate a.auth st).1 = true →
          ∃ tl, (upload_attendance true (a :: rest) st).2.2 =
            .helloReq :: .loginReq :: .uploadReq :: tl)) := by
  refine ⟨?_, ?_, ?_⟩
  · intro env st
    constructor
    · intro hfail
      rcases hA : authenticate env.auth st with ⟨b, st1, tr⟩
      rw [hA] at hfail
      simp at hfail
      subst hfail
      have hg : get_auth_headers env.auth st =
          (.error "Authentication required", st1, tr) := by
        simp [get_auth_headers, hA]
      have htr := authenticate_trace env.auth st
      rw [hA] at htr
      have : get_pointing_import env st = (.error "Authentication required", st1, tr) := by
        simp [get_pointing_import, hg]
      rw [this]
      refine ⟨rfl, ?_⟩
      rcases htr with h | h <;> rw [h] <;> decide
    · intro hok
      rcases hA : authenticate env.auth st with ⟨b, st1, tr⟩
      rw [hA] at hok
      simp at hok
      subst hok
      have hg : get_auth_headers env.auth st =
          (.ok ⟨st1.xsrf_token, st1.jwt_token⟩, st1, tr) := by
        simp [get_auth_headers, hA]
      have htr := auth_true_trace env.auth st (by rw [hA])
      rw [hA] at htr
      have htr2 : tr = [Ev.helloReq, Ev.loginReq] := htr
      simp only [get_pointing_import, hg]
      split <;> simp [htr2]
  · intro env st
    constructor
    · intro hfail
      rcases hA : authenticate env.auth st with ⟨b, st1, tr⟩
      rw [hA] at hfail
      simp at hfail
      subst hfail
      have hg : get_auth_headers env.auth st =
          (.error "Authentication required", st1, tr) := by
        simp [get_auth_headers, hA]
      have htr := authenticate_trace env.auth st
      rw [hA] at htr
      have : get_pointings_with_job_id env st =
          (.error "Authentication required", st1, tr) := by
        simp [get_pointings_with_job_id, hg]
      rw [this]
      refine ⟨rfl, ?_⟩
      rcases htr with h | h <;> rw [h] <;> decide
    · intro hok
      rcases hA : authenticate env.auth st with ⟨b, st1, tr⟩
      rw [hA] at hok
      simp at hok
      subst hok
      have hg : get_auth_headers env.auth st =
          (.ok ⟨st1.xsrf_token, st1.jwt_token⟩, st1, tr) := by
        simp [get_auth_headers, hA]
      have htr := auth_true_trace env.auth st (by rw [hA])
      rw [hA] at htr
      have htr2 : tr = [Ev.helloReq, Ev.loginReq] := htr
      simp only [get_pointings_with_job_id, hg]
      split <;> simp [htr2]
  · intro a rest st
    constructor
    · intro hfail
      rcases hA : authenticate a.auth st with ⟨b, st1, tr⟩
      rw [hA] at hfail
      simp at hfail
      subst hfail
      have hg : get_auth_headers a.auth st =
          (.error "Authentication required", st1, tr) := by
        simp [get_auth_headers, hA]
      have htr := authenticate_trace a.auth st
      rw [hA] at htr
      have hbody : upload_attendance true (a :: rest) st =
          (⟨false, none, some "Authentication required"⟩, st1, tr) := by
        simp [upload_attendance, hg]
      rw [hbody]
      refine ⟨rfl, ?_⟩
      rcases htr with h | h <;> rw [h] <;> decide
    · intro hok
      rcases hA : authenticate a.auth st with ⟨b, st1, tr⟩
      rw [hA] at hok
      simp at hok
      subst hok
      have hg : get_auth_headers a.auth st =
          (.ok ⟨st1.xsrf_token, st1.jwt_token⟩, st1, tr) := by
        simp [get_auth_headers, hA]
      have htr := auth_true_trace a.auth st (by rw [hA])
      rw [hA] at htr
      have htr2 : tr = [Ev.helloReq, Ev.loginReq] := htr
      by_cases h200 : a.respStatus = 200
      · exact ⟨[], by simp [upload_attendance, hg, h200, htr2]⟩
      · by_cases h401 : a.respStatus = 401
        · rcases hB : authenticate a.reauth st1 with ⟨c, st2, tr2⟩
          cases c
          · exact ⟨tr2, by simp [upload_attendance, hg, h200, h401, hB, htr2]⟩
          · exact ⟨tr2 ++ (upload_attendance true rest st2).2.2,
              by simp [upload_attendance, hg, h200, h401, hB, htr2]⟩
        · exact ⟨[], by simp [upload_attendance, hg, h200, h401, htr2]⟩


/-! ### Fixtures and witnesses for the hypothesis-bearing theorems -/

/-- A concrete export-info dict. -/
def infoX : ExportInfo := ⟨"b1", "exports/attendance_s_b1.xlsx", 1⟩

/-- A successful upload response. -/
def respOk : UploadResult := ⟨true, some 7, none⟩

/-- A cycle whose first poll raises. -/
def envPollRaise : CycleEnv :=
  ⟨⟨"b1", "s", .ok ()⟩, respOk, 5,
   fun _ => .error "ConnectionError: API unreachable", .ok []⟩

/-- A cycle whose reconciled-events fetch raises after COMPLETED. -/
def envPtsRaise : CycleEnv :=
  ⟨⟨"b1", "s", .ok ()⟩, respOk, 5,
   fun _ => .ok ⟨some "COMPLETED", some 7⟩, .error "HTTPError 500"⟩

/-- A cycle whose poll reports an unrecognized status. -/
def envUnknownStatus : CycleEnv :=
  ⟨⟨"b1", "s", .ok ()⟩, respOk, 5,
   fun _ => .ok ⟨some "WEIRD", none⟩, .ok []⟩

theorem C4_amended_exception_absorption_witness :
    (upload_data ⟨true, true⟩ envCompleted [rowUnprocessed] []).raised =
      none ∧
    upload_data ⟨true, true⟩ envExcelBoom [rowUnprocessed] [] =
      ⟨[rowUnprocessed], [], false,
       some "PermissionError: exports not writable"⟩ ∧
    pollLoop envPollRaise infoX respOk 0 (4 + 1) [rowUnprocessed] [] =
      ⟨[rowUnprocessed],
       log_api_upload (errAudit infoX "ConnectionError: API unreachable") [],
       true, none⟩ ∧
    pollLoop envPtsRaise infoX respOk 0 (4 + 1) [rowUnprocessed] [] =
      ⟨[rowUnprocessed], log_api_upload (errAudit infoX "HTTPError 500") [],
       true, none⟩ ∧
    pollLoop envUnknownStatus infoX respOk 0 (4 + 1) [rowUnprocessed] [] =
      ⟨[rowUnprocessed],
       log_api_upload
         (errAudit infoX "Pointing Import with unknown status") [],
       true, none⟩ := by
  refine ⟨?_, ?_, ?_, ?_, ?_⟩
  · exact C4_amended_exception_absorption.1 ⟨true, true⟩ envCompleted
      [rowUnprocessed] [] rfl
  · exact C4_amended_exception_absorption.2.1 ⟨true, true⟩ envExcelBoom
      [rowUnprocessed] [] "PermissionError: exports not writable"
      (by decide) (by decide) rfl
  · exact C4_amended_exception_absorption.2.2.1 envPollRaise infoX respOk
      0 4 [rowUnprocessed] [] "ConnectionError: API unreachable" rfl
  · exact C4_amended_exception_absorption.2.2.2.1 envPtsRaise infoX respOk
      0 4 [rowUnprocessed] [] "HTTPError 500" ⟨some "COMPLETED", some 7⟩
      rfl rfl rfl
  · exact C4_amended_exception_absorption.2.2.2.2 envUnknownStatus infoX
      respOk 0 4 [rowUnprocessed] [] ⟨some "WEIRD", none⟩ rfl (by decide)
      (by decide) (by decide) (by decide) (by decide)

theorem C5_amended_transparent_retry_witness :
    (upload_attendance true [att401, att200] st0).1 =
      (upload_attendance true [att200]
        (authenticate att401.reauth
          (get_auth_headers att401.auth st0).2.1).2.1).1 ∧
    (upload_attendance true [att200] st0).1 = ⟨true, some 9, none⟩ := by
  constructor
  · exact C5_amended_transparent_retry.1 att401 [att200] st0 (by decide)
      (by decide) (by decide)
  · exact C5_amended_transparent_retry.2 att200 [] st0 (by decide)
      (by decide)

/-- A pointing-import environment whose handshake fails. -/
def envImportBad : ImportEnv := ⟨badAuth, 200, ⟨some "COMPLETED", some 3⟩⟩

/-- A pointing-import environment whose handshake succeeds. -/
def envImportGood : ImportEnv := ⟨okAuth, 200, ⟨some "COMPLETED", some 3⟩⟩

/-- A pointings environment whose handshake fails. -/
def envPtsBad : PointingsEnv := ⟨badAuth, 200, []⟩

/-- A pointings environment whose handshake succeeds. -/
def envPtsGood : PointingsEnv := ⟨okAuth, 200, []⟩

/-- An upload attempt whose opening handshake fails. -/
def attBadAuth : UploadAttempt := ⟨badAuth, 200, some 9, "", okAuth⟩

theorem C10_auth_handshake_per_call_witness :
    (get_pointing_import envImportBad st0).1 =
      .error "Authentication required" ∧
    (get_pointing_import envImportGood st0).2.2 =
      [.helloReq, .loginReq, .importReq] ∧
    (get_pointings_with_job_id envPtsBad st0).1 =
      .error "Authentication required" ∧
    (get_pointings_with_job_id envPtsGood st0).2.2 =
      [.helloReq, .loginReq, .pointingsReq] ∧
    (upload_attendance true [attBadAuth] st0).1 =
      ⟨false, none, some "Authentication required"⟩ ∧
    (∃ tl, (upload_attendance true [att200] st0).2.2 =
      .helloReq :: .loginReq :: .uploadReq :: tl) := by
  refine ⟨?_, ?_, ?_, ?_, ?_, ?_⟩
  · exact ((C10_auth_handshake_per_call.1 envImportBad st0).1 (by decide)).1
  · exact (C10_auth_handshake_per_call.1 envImportGood st0).2 (by decide)
  · exact ((C10_auth_handshake_per_call.2.1 envPtsBad st0).1 (by decide)).1
  · exact (C10_auth_handshake_per_call.2.1 envPtsGood st0).2 (by decide)
  · exact ((C10_auth_handshake_per_call.2.2 attBadAuth [] st0).1
      (by decide)).1
  · exact (C10_auth_handshake_per_call.2.2 att200 [] st0).2 (by decide)

end TAT
